import Mathlib

/-!
Verification of the live-capture orchestration subsystem of the AI_IDS
repository (src/inference/live_capture_loop.py and src/api/api_server.py),
via a shallow embedding of its data model and operations.

Modelling conventions:
* Python floats are tagged values: `nan`, `inf`, `ninf`, or a finite value
  (payload modelled as an `Int`; no claim performs float arithmetic).
* A pandas DataFrame read from the results CSV holds scalar cells only, so
  rows are association lists from column names to scalar cells. A Python
  dict is modelled as an association list as well.
* Python `None` is `cNone` / `pNone`; `pd.isna` holds for `None` and NaN.
* The mutable module globals `running`, `loop_thread`, `last_capture_file`
  of live_capture_loop.py form the `Globals` state. Functions that mutate
  them are state transformers; reads of `running` from inside the worker
  thread are supplied by an oracle (`CycleEnv` / `IterEnv` fields), since a
  concurrent `stop_capture` may change the flag between two reads. The
  `Globals` value threaded through records exactly the writes performed by
  the modelled code itself.
* A Python function that can raise returns `Except String _`; an error
  value models an uncaught exception propagating to the caller.
-/

/-- A Python float: NaN, plus or minus infinity, or a finite value. -/
inductive PFloat where
  | nan : PFloat
  | inf : PFloat
  | ninf : PFloat
  | fin (v : Int) : PFloat
deriving DecidableEq, Repr

/-- A scalar cell of a DataFrame produced by pd.read_csv: None, a float,
an int, or a string. -/
inductive PCell where
  | cNone : PCell
  | cFloat (f : PFloat) : PCell
  | cInt (n : Int) : PCell
  | cStr (s : String) : PCell
deriving DecidableEq, Repr

/-- A JSON-like Python value, as handled by `replace_nan_with_none` in
api_server.py: scalars plus (nested) lists and dicts. -/
inductive PVal where
  | pNone : PVal
  | pFloat (f : PFloat) : PVal
  | pInt (n : Int) : PVal
  | pStr (s : String) : PVal
  | pList (l : List PVal) : PVal
  | pDict (d : List (String × PVal)) : PVal

/-- `pd.isna` on a scalar cell: true for `None` and for float NaN. -/
def isNA : PCell → Bool
  | .cNone => true
  | .cFloat .nan => true
  | _ => false

/-- api_server.py lines 184-197: recursively replace NaN values with None
for JSON serialization. For a float the test is
`pd.isna(obj) or np.isnan(obj)`, which holds exactly for NaN; ints are
kept (as ints); dicts and lists are mapped recursively; all other values
pass through unchanged. -/
def replace_nan_with_none : PVal → PVal
  | .pDict d => .pDict (d.attach.map (fun x => (x.1.1, replace_nan_with_none x.1.2)))
  | .pList l => .pList (l.attach.map (fun x => replace_nan_with_none x.1))
  | .pFloat f => if f = .nan then .pNone else .pFloat f
  | .pInt n => .pInt n
  | .pNone => .pNone
  | .pStr s => .pStr s
termination_by v => sizeOf v
decreasing_by
  · rcases x with ⟨⟨a, b⟩, hm⟩
    have h := List.sizeOf_lt_of_mem hm
    show sizeOf b < sizeOf (PVal.pDict d)
    simp only [PVal.pDict.sizeOf_spec, Prod.mk.sizeOf_spec] at *
    omega
  · rcases x with ⟨v, hm⟩
    have h := List.sizeOf_lt_of_mem hm
    show sizeOf v < sizeOf (PVal.pList l)
    simp only [PVal.pList.sizeOf_spec] at *
    omega

/-- No NaN occurs anywhere in a value, recursively. -/
def PVal.noNaN : PVal → Bool
  | .pFloat .nan => false
  | .pDict d => d.attach.all (fun x => PVal.noNaN x.1.2)
  | .pList l => l.attach.all (fun x => PVal.noNaN x.1)
  | _ => true
termination_by v => sizeOf v
decreasing_by
  · rcases x with ⟨⟨a, b⟩, hm⟩
    have h := List.sizeOf_lt_of_mem hm
    show sizeOf b < sizeOf (PVal.pDict d)
    simp only [PVal.pDict.sizeOf_spec, Prod.mk.sizeOf_spec] at *
    omega
  · rcases x with ⟨v, hm⟩
    have h := List.sizeOf_lt_of_mem hm
    show sizeOf v < sizeOf (PVal.pList l)
    simp only [PVal.pList.sizeOf_spec] at *
    omega

/-- Every numeric value occurring in a value, recursively, is a finite,
JSON-representable number; NaN and the infinities violate this. -/
def PVal.allFiniteOrNone : PVal → Bool
  | .pFloat .nan => false
  | .pFloat .inf => false
  | .pFloat .ninf => false
  | .pDict d => d.attach.all (fun x => PVal.allFiniteOrNone x.1.2)
  | .pList l => l.attach.all (fun x => PVal.allFiniteOrNone x.1)
  | _ => true
termination_by v => sizeOf v
decreasing_by
  · rcases x with ⟨⟨a, b⟩, hm⟩
    have h := List.sizeOf_lt_of_mem hm
    show sizeOf b < sizeOf (PVal.pDict d)
    simp only [PVal.pDict.sizeOf_spec, Prod.mk.sizeOf_spec] at *
    omega
  · rcases x with ⟨v, hm⟩
    have h := List.sizeOf_lt_of_mem hm
    show sizeOf v < sizeOf (PVal.pList l)
    simp only [PVal.pList.sizeOf_spec] at *
    omega

/-- A row of a DataFrame: an association list from column names to cells. -/
abbrev Row := List (String × PCell)

/-- A pandas DataFrame: a list of column names and a list of rows. -/
structure DataFrame where
  cols : List String
  rows : List Row
deriving DecidableEq, Repr

/-- Reading a cell of a row by column name; a missing entry reads as a
missing value (pandas fills absent cells with NaN, which our replaced
frames carry as None). -/
def rowGet (r : Row) (c : String) : PCell :=
  (r.lookup c).getD .cNone

/-- One cell of `df.replace(\x7bnp.nan: None, pd.NA: None\x7d)`:
float NaN becomes None, everything else is unchanged. -/
def replace_na_cell : PCell → PCell
  | .cFloat .nan => .cNone
  | v => v

/-- api_server.py line 219 / 239: `df.replace(\x7bnp.nan: None, pd.NA: None\x7d)`
applied to a whole frame. -/
def replace_na_df (df : DataFrame) : DataFrame :=
  ⟨df.cols, df.rows.map (fun r => r.map (fun kv => (kv.1, replace_na_cell kv.2)))⟩

/-- `Series.value_counts().to_dict()`: the count of each distinct non-null
value of a column, as a dict keyed by the value. pandas drops null values
(NaN / None) before counting. -/
def value_counts (vs : List PCell) : List (PCell × Nat) :=
  let vs' := vs.filter (fun v => !isNA v)
  vs'.dedup.map (fun v => (v, vs'.count v))

/-- Python `str()` of a scalar cell (used for the attack-type dict keys). -/
def cellToString : PCell → String
  | .cStr s => s
  | .cInt n => toString n
  | .cFloat .nan => "nan"
  | .cFloat .inf => "inf"
  | .cFloat .ninf => "-inf"
  | .cFloat (.fin v) => toString v
  | .cNone => "None"

/-- A scalar cell viewed as a JSON-like value (`to_dict` record entries). -/
def cellToPVal : PCell → PVal
  | .cNone => .pNone
  | .cFloat f => .pFloat f
  | .cInt n => .pInt n
  | .cStr s => .pStr s

/-- The module-level mutable globals of live_capture_loop.py. The thread
object `loop_thread` is modelled by an identifier. -/
structure Globals where
  running : Bool
  loop_thread : Option Nat
  last_capture_file : Option String
deriving DecidableEq, Repr

/-- Result of `start_capture`: the updated globals, the Python return
value (None or True), and whether a new worker thread was launched. -/
structure StartResult where
  g : Globals
  ret : Option Bool
  launched : Bool
deriving DecidableEq, Repr

/-- live_capture_loop.py lines 56-65: `start_capture`. If `running` is
already true it returns None without touching anything; otherwise it sets
`running`, creates and starts the worker thread, and returns True. -/
def start_capture (g : Globals) (tid : Nat) : StartResult :=
  if g.running then ⟨g, none, false⟩
  else ⟨{ g with running := true, loop_thread := some tid }, some true, true⟩

/-- live_capture_loop.py lines 68-76: `stop_capture`. Sets `running` to
false, best-effort joins the thread (no state effect), returns True. -/
def stop_capture (g : Globals) : Globals × Bool :=
  ({ g with running := false }, true)

/-- live_capture_loop.py lines 78-80: `is_running`. -/
def is_running (g : Globals) : Bool :=
  g.running

/-- live_capture_loop.py lines 82-85: `get_last_capture`. Python's
`x if x else None` treats the empty string as falsy. -/
def get_last_capture (g : Globals) : Option String :=
  match g.last_capture_file with
  | some s => if s = "" then none else some s
  | none => none

/-- The oracle for one execution of `capture_once`: the values the three
reads of the shared `running` flag observe (a concurrent `stop_capture`
may change the flag at any time), the number of packets `sniff` returns,
the timestamp string, and the outcome of `run_pipeline` (a table, or a
raised exception). -/
structure CycleEnv where
  running0 : Bool
  packets : Nat
  running1 : Bool
  timestamp : String
  running2 : Bool
  pipeline : Except String DataFrame
deriving Repr

/-- Observable side effects of one `capture_once` call: the path of the
raw capture persisted by `wrpcap` (if any), whether `run_pipeline` was
invoked, and whether it overwrote the results artifact
live/live_predictions.csv (it does so on success). -/
structure CycleEffects where
  persistedRaw : Option String
  pipelineInvoked : Bool
  resultsWritten : Bool
deriving DecidableEq, Repr

/-- Result of one `capture_once` call: updated globals, the Python result
(None for a no-op, a table on success, or a propagated exception), and
the side effects performed. -/
structure CycleResult where
  g : Globals
  ret : Except String (Option DataFrame)
  eff : CycleEffects
deriving Repr

set_option linter.unusedVariables false in
/-- live_capture_loop.py lines 14-39: `capture_once`. Checks `running` on
entry; sniffs; returns a no-op when zero packets were captured or the
flag was cleared during the sniff; otherwise records the timestamped
filename in `last_capture_file`, persists the raw capture, re-checks the
flag, and finally calls `run_pipeline` — whose exception, if any,
propagates to the caller uncaught. `duration` is consumed by `sniff`,
whose observable outcome is the oracle's packet count. -/
def capture_once (duration : Nat) (env : CycleEnv) (g : Globals) : CycleResult :=
  if !env.running0 then ⟨g, .ok none, ⟨none, false, false⟩⟩
  else
    if env.packets = 0 || !env.running1 then ⟨g, .ok none, ⟨none, false, false⟩⟩
    else
      let fname := "capture_" ++ env.timestamp ++ ".pcap"
      let pcap_path := "live/" ++ fname
      let g1 := { g with last_capture_file := some fname }
      if !env.running2 then ⟨g1, .ok none, ⟨some pcap_path, false, false⟩⟩
      else
        match env.pipeline with
        | .ok df => ⟨g1, .ok (some df), ⟨some pcap_path, true, true⟩⟩
        | .error e => ⟨g1, .error e, ⟨some pcap_path, true, false⟩⟩

/-- The oracle for one iteration of the supervisor loop: the value the
`while running` condition observes, the environment of the cycle it runs,
and the value the post-cycle `if not running` re-check observes. -/
structure IterEnv where
  whileCheck : Bool
  cycle : CycleEnv
  afterCheck : Bool
deriving Repr

/-- Result of the background worker: final globals, how the thread ended
(normal loop exit, or an uncaught exception that terminated it), and the
effects of the cycles that actually ran. -/
structure LoopResult where
  g : Globals
  exitCode : Except String Unit
  effs : List CycleEffects
deriving Repr

/-- The `while running:` loop of `background_loop` (lines 46-53). Each
iteration checks the flag, runs `capture_once(10)`, and re-checks the
flag so the loop breaks immediately; `time.sleep(1)` has no state effect.
An exception raised inside `capture_once` is not caught anywhere: it
terminates the thread. The iteration oracle list bounds the observed
execution. -/
def background_loop_go : List IterEnv → Globals → LoopResult
  | [], g => ⟨g, .ok (), []⟩
  | it :: rest, g =>
    if !it.whileCheck then ⟨g, .ok (), []⟩
    else
      let c := capture_once 10 it.cycle g
      match c.ret with
      | .error e => ⟨c.g, .error e, [c.eff]⟩
      | .ok _ =>
        if !it.afterCheck then ⟨c.g, .ok (), [c.eff]⟩
        else
          let r := background_loop_go rest c.g
          ⟨r.g, r.exitCode, c.eff :: r.effs⟩

/-- live_capture_loop.py lines 41-53: `background_loop`. It first sets the
global `running` to True (a real write to the shared flag), then runs the
supervisor loop. -/
def background_loop (iters : List IterEnv) (g : Globals) : LoopResult :=
  background_loop_go iters { g with running := true }

/-- The live-status snapshot returned by `/live_status`. The summary dict
is built with exactly the three keys BENIGN, ANOMALY, ATTACK, so it is a
record with exactly those three counters. -/
structure Snapshot where
  running : Bool
  last_capture : Option String
  flows : Nat
  summary_BENIGN : Nat
  summary_ANOMALY : Nat
  summary_ATTACK : Nat
  attack_types : List (String × Nat)
  all_flows : PVal

/-- api_server.py lines 224-228: `summary.get(s)` on the value-counts
dict, with 0 when the key is absent (`int(summary.get(s, 0)) if
summary.get(s) is not None else 0`). -/
def summaryGet (summary : List (PCell × Nat)) (s : String) : Nat :=
  match summary.lookup (PCell.cStr s) with
  | some n => n
  | none => 0

/-- api_server.py lines 231-236: the attack-type breakdown. Built only
when the Attack_Type column exists and some row is labeled ATTACK; keys
are stringified, entries with a null key are dropped (the counts
themselves are never null). -/
def attackTypesOf (df : DataFrame) : List (String × Nat) :=
  if "Attack_Type" ∈ df.cols then
    let attack_df := df.rows.filter (fun r => rowGet r "Label" == PCell.cStr "ATTACK")
    if attack_df.isEmpty then []
    else
      ((value_counts (attack_df.map (fun r => rowGet r "Attack_Type"))).filter
        (fun kv => !isNA kv.1)).map (fun kv => (cellToString kv.1, kv.2))
  else []

/-- api_server.py lines 199-252: `live_status`. Reads `is_running` and
`get_last_capture` from the worker state; `file` is the content of
live/live_predictions.csv, or `none` when the file does not exist. When
the file exists it is NaN-replaced, `df["Label"]` is counted (a frame
without a Label column raises a KeyError, modelled as an error result),
the attack-type breakdown is computed, and `all_flows` is the NaN-replaced
record list passed once more through `replace_nan_with_none`. -/
def live_status (g : Globals) (file : Option DataFrame) : Except String Snapshot :=
  let running := is_running g
  let last_capture := get_last_capture g
  match file with
  | none => .ok ⟨running, last_capture, 0, 0, 0, 0, [], .pList []⟩
  | some df0 =>
    let df := replace_na_df df0
    if "Label" ∈ df.cols then
      let summary := value_counts (df.rows.map (fun r => rowGet r "Label"))
      let all_flows :=
        replace_nan_with_none (.pList ((replace_na_df df).rows.map
          (fun r => .pDict (r.map (fun kv => (kv.1, cellToPVal kv.2))))))
      .ok ⟨running, last_capture, df.rows.length,
        summaryGet summary "BENIGN", summaryGet summary "ANOMALY",
        summaryGet summary "ATTACK", attackTypesOf df, all_flows⟩
    else .error "KeyError: Label"

/-- Specification-side count: the number of rows of the file whose Label
cell is the given string. -/
def countLabel (df : DataFrame) (s : String) : Nat :=
  df.rows.countP (fun r => rowGet r "Label" == PCell.cStr s)

/-- Specification-side attack-type breakdown, following the spec's words:
built only from rows labeled ATTACK, keyed by (stringified) attack-type
value, omitting any row whose attack-type is missing/unset. -/
def attackTypesSpec (df : DataFrame) : List (String × Nat) :=
  let vals := (((replace_na_df df).rows.filter
      (fun r => rowGet r "Label" == PCell.cStr "ATTACK")).map
      (fun r => rowGet r "Attack_Type")).filter (fun v => !isNA v)
  vals.dedup.map (fun v => (cellToString v, vals.count v))

/-- Well-formedness of a frame as produced by pd.read_csv: every key
occurring in a row is one of the frame's columns. -/
def ColsClosed (df : DataFrame) : Prop :=
  ∀ r ∈ df.rows, ∀ kv ∈ r, kv.1 ∈ df.cols

/-- Shared state observed by concurrently executing `start_capture` calls:
the `running` flag and a counter of worker launches. -/
structure SpinState where
  running : Bool
  launches : Nat
deriving DecidableEq, Repr

/-- Program counter of one `start_capture` call, at interpreter-step
granularity: about to read `running` (line 59), about to run the
set-and-launch block (lines 62-65), or returned with a value. -/
inductive SPC where
  | check : SPC
  | act : SPC
  | ret (r : Option Bool) : SPC
deriving DecidableEq, Repr

/-- One interpreter step of a `start_capture` call: the check reads the
shared flag and either returns None or proceeds; the act block sets
`running`, launches a worker and returns True. No lock serializes the
two steps. -/
def startStep (s : SpinState) (pc : SPC) : SpinState × SPC :=
  match pc with
  | .check => if s.running then (s, .ret none) else (s, .act)
  | .act => (⟨true, s.launches + 1⟩, .ret (some true))
  | .ret r => (s, .ret r)

/-- Run a schedule (a list of thread indices) over N concurrent
`start_capture` calls whose program counters are `pcs`. -/
def runSched (sched : List Nat) (s : SpinState) (pcs : List SPC) : SpinState × List SPC :=
  match sched with
  | [] => (s, pcs)
  | i :: rest =>
    match pcs[i]? with
    | none => runSched rest s pcs
    | some pc =>
      let sp := startStep s pc
      runSched rest sp.1 (pcs.set i sp.2)

/-- The fully serialized schedule starting at thread index i: that call
runs to completion, then the next, and so on. -/
def seqSchedFrom (i : Nat) : Nat → List Nat
  | 0 => []
  | n + 1 => i :: i :: seqSchedFrom (i + 1) n

/-- Serialized schedule for n calls starting at thread 0. -/
def seqSched (n : Nat) : List Nat :=
  seqSchedFrom 0 n

/-- Fresh worker state: not running, no thread, no capture yet. -/
def gIdle : Globals :=
  ⟨false, none, none⟩

/-- A worker state with a running thread and a previous capture artifact. -/
def gRun : Globals :=
  ⟨true, some 0, some "capture_old.pcap"⟩

/-- A one-row results table with a single BENIGN flow. -/
def dfOne : DataFrame :=
  ⟨["Label"], [[("Label", PCell.cStr "BENIGN")]]⟩

/-- A cycle in which everything succeeds. -/
def envOK : CycleEnv :=
  ⟨true, 5, true, "2024-01-01_00-00-02", true, .ok dfOne⟩

/-- A cycle in which packets are captured but `run_pipeline` raises. -/
def envFail : CycleEnv :=
  ⟨true, 5, true, "2024-01-01_00-00-01", true, .error "pipeline error"⟩

/-- A loop iteration running the failing cycle, with `running` observed
true at every checkpoint. -/
def iterFail : IterEnv :=
  ⟨true, envFail, true⟩

/-- A loop iteration running the successful cycle, with `running` observed
true at every checkpoint. -/
def iterOK : IterEnv :=
  ⟨true, envOK, true⟩

/-- A cycle observing zero captured packets. -/
def envEmpty : CycleEnv :=
  ⟨true, 0, true, "2024-01-01_00-00-03", true, .ok dfOne⟩

/-- `capture_once` never writes the `running` flag or the thread handle:
its only write to the globals is `last_capture_file`. -/
theorem capture_once_preserves (d : Nat) (env : CycleEnv) (g : Globals) :
    (capture_once d env g).g.running = g.running ∧
    (capture_once d env g).g.loop_thread = g.loop_thread := by
  rw [capture_once]
  split
  · exact ⟨rfl, rfl⟩
  · split
    · exact ⟨rfl, rfl⟩
    · split
      · exact ⟨rfl, rfl⟩
      · split <;> exact ⟨rfl, rfl⟩

/-- The loop body of the worker never writes `running` or `loop_thread`. -/
theorem background_loop_go_preserves (iters : List IterEnv) (g : Globals) :
    (background_loop_go iters g).g.running = g.running ∧
    (background_loop_go iters g).g.loop_thread = g.loop_thread := by
  induction iters generalizing g with
  | nil => exact ⟨rfl, rfl⟩
  | cons it rest ih =>
    rw [background_loop_go]
    split
    · exact ⟨rfl, rfl⟩
    · have hc := capture_once_preserves 10 it.cycle g
      have hr := ih (capture_once 10 it.cycle g).g
      cases hret : (capture_once 10 it.cycle g).ret with
      | error e =>
        simp only [hret]
        exact hc
      | ok a =>
        simp only [hret]
        split
        · exact hc
        · exact ⟨hr.1.trans hc.1, hr.2.trans hc.2⟩

/-- Claim C1 (code evidence): a cycle in which `run_pipeline` raises
terminates the background worker. With two iterations scheduled, the
first cycle's exception propagates out of `capture_once` and
`background_loop` (which has no handler): the thread ends with the
exception, only the first cycle's effects happened, and the second
iteration never runs although its `while running` check would observe
true. The claim says the loop proceeds to another iteration instead. -/
theorem background_loop_dies_on_pipeline_failure :
    background_loop [iterFail, iterOK] gIdle =
      ⟨⟨true, none, some "capture_2024-01-01_00-00-01.pcap"⟩,
        .error "pipeline error",
        [⟨some "live/capture_2024-01-01_00-00-01.pcap", true, false⟩]⟩ := rfl

/-- Claim C4 counterexample: `background_loop` itself writes the `running`
flag — its first statement sets `running = True` — so `running` is not
mutated only by `start_capture` and `stop_capture`. Starting from the
idle state (running false) with a schedule whose while-check immediately
observes false, the loop still leaves `running` set to true. -/
theorem background_loop_writes_running :
    gIdle.running = false ∧ (background_loop [] gIdle).g.running = true :=
  ⟨rfl, rfl⟩

/-- Claim C4 (amended): `running` is written by `start_capture`,
`stop_capture` and also by `background_loop`, which unconditionally sets
it to true on entry and never writes it afterwards; `loop_thread` is
written only by `start_capture` (the loop preserves it); and
`capture_once` writes neither `running` nor `loop_thread` (its only
global write is `last_capture_file`). -/
theorem running_and_thread_write_discipline (iters : List IterEnv) (d : Nat)
    (env : CycleEnv) (g g2 : Globals) :
    (background_loop iters g).g.running = true ∧
    (background_loop iters g).g.loop_thread = g.loop_thread ∧
    (capture_once d env g2).g.running = g2.running ∧
    (capture_once d env g2).g.loop_thread = g2.loop_thread := by
  have h1 := background_loop_go_preserves iters { g with running := true }
  have h2 := capture_once_preserves d env g2
  exact ⟨h1.1, h1.2, h2.1, h2.2⟩

/-- Claim C6: a cycle that captures zero packets, or during whose capture
the stop signal fired (the post-sniff re-check of `running` observes
false), is a no-op: it returns None without error, leaves the globals
(hence `last_capture_file`) unchanged, persists no raw capture, does not
invoke the pipeline, and does not touch the results artifact. -/
theorem capture_once_noop_on_empty_or_stop (d : Nat) (env : CycleEnv) (g : Globals)
    (h : env.packets = 0 ∨ env.running1 = false) :
    capture_once d env g = ⟨g, .ok none, ⟨none, false, false⟩⟩ := by
  rcases h with h | h <;> cases h0 : env.running0 <;>
    simp [capture_once, h0, h]

/-- Witness for C6 at a concrete zero-packet cycle. -/
theorem capture_once_noop_witness :
    (envEmpty.packets = 0 ∨ envEmpty.running1 = false) ∧
    capture_once 10 envEmpty gRun = ⟨gRun, .ok none, ⟨none, false, false⟩⟩ :=
  ⟨Or.inl rfl, capture_once_noop_on_empty_or_stop 10 envEmpty gRun (Or.inl rfl)⟩

/-- Claim C2 counterexample: a cycle whose pipeline invocation fails has
already committed the new capture filename. Starting from a state whose
last capture was capture_old.pcap, the failing cycle leaves
`get_last_capture` returning the new timestamped name, not the prior
last-known-good value. -/
theorem last_capture_changed_by_failed_cycle :
    (capture_once 10 envFail gRun).ret = .error "pipeline error" ∧
    get_last_capture gRun = some "capture_old.pcap" ∧
    get_last_capture (capture_once 10 envFail gRun).g =
      some "capture_2024-01-01_00-00-01.pcap" :=
  ⟨rfl, rfl, rfl⟩

/-- Claim C2 (amended): `last_capture_file` is committed at persist time,
not on success: any cycle that reaches the persist step (entry check
passed, nonzero packets, post-sniff check passed) sets it to the new
timestamped filename regardless of the later stop re-check and of the
pipeline outcome; only cycles that no-op before persisting leave the
globals (hence `get_last_capture`) unchanged. -/
theorem last_capture_commit_at_persist (d : Nat) (env : CycleEnv) (g : Globals) :
    (env.running0 = false ∨ env.packets = 0 ∨ env.running1 = false →
      (capture_once d env g).g = g) ∧
    (env.running0 = true → env.packets ≠ 0 → env.running1 = true →
      (capture_once d env g).g.last_capture_file =
        some ("capture_" ++ env.timestamp ++ ".pcap")) := by
  constructor
  · rintro (h | h | h)
    · simp [capture_once, h]
    · cases h0 : env.running0 <;> simp [capture_once, h0, h]
    · cases h0 : env.running0 <;> simp [capture_once, h0, h]
  · intro h0 hp h1
    cases h2 : env.running2
    · simp [capture_once, h0, hp, h1, h2]
    · cases hpl : env.pipeline <;> simp [capture_once, h0, hp, h1, h2, hpl]

/-- Witness for the amended C2: a concrete no-op cycle leaves the state
unchanged, and a concrete failing cycle has committed the new name. -/
theorem last_capture_commit_witness :
    (capture_once 10 envEmpty gRun).g = gRun ∧
    (capture_once 10 envFail gRun).g.last_capture_file =
      some "capture_2024-01-01_00-00-01.pcap" :=
  ⟨(last_capture_commit_at_persist 10 envEmpty gRun).1 (Or.inr (Or.inl rfl)),
   (last_capture_commit_at_persist 10 envFail gRun).2 rfl (by decide) rfl⟩

/-- Claim C8: when no results file exists, `live_status` returns, without
error, a snapshot carrying the worker state's running flag and
last-capture name, zero flows, the three-label summary all zero, no
attack types, and an empty flow list. -/
theorem live_status_no_file (g : Globals) :
    live_status g none =
      .ok ⟨is_running g, get_last_capture g, 0, 0, 0, 0, [], .pList []⟩ := rfl

/-- Claim C9: `start_capture` on a state whose `running` flag is true
returns immediately (with None, not an error), launches no worker, and
leaves the globals — in particular `running` and `loop_thread` —
unchanged. -/
theorem start_capture_idempotent_when_running (g : Globals) (tid : Nat)
    (h : g.running = true) :
    start_capture g tid = ⟨g, none, false⟩ := by
  simp [start_capture, h]

/-- Witness for C9 at a concrete running state. -/
theorem start_capture_idempotent_witness :
    gRun.running = true ∧ start_capture gRun 7 = ⟨gRun, none, false⟩ :=
  ⟨rfl, start_capture_idempotent_when_running gRun 7 rfl⟩

/-- Claim C10: the interface acknowledgments are asymmetric —
`start_capture` returns None (not False) when a worker is already
running and True when it launches one, while `stop_capture` returns True
unconditionally, including on a state where no worker was ever started. -/
theorem start_stop_return_values (g : Globals) (tid : Nat) :
    (start_capture { g with running := true } tid).ret = none ∧
    (start_capture { g with running := false } tid).ret = some true ∧
    (stop_capture g).2 = true := by
  refine ⟨?_, ?_, rfl⟩ <;> simp [start_capture]

/-- Once the shared flag is set and no pending call has passed its check,
the remaining schedule cannot change the state: every call that reads the
flag sees true and returns None. -/
theorem runSched_stable (sched : List Nat) (s : SpinState) (pcs : List SPC)
    (hrun : s.running = true) (hna : ∀ pc ∈ pcs, pc ≠ SPC.act) :
    (runSched sched s pcs).1 = s := by
  induction sched generalizing pcs with
  | nil => rfl
  | cons i rest ih =>
    rw [runSched]
    cases hp : pcs[i]? with
    | none => exact ih pcs hna
    | some pc =>
      have hmem : pc ∈ pcs := List.getElem?_mem hp
      cases pc with
      | check =>
        simp only [startStep, hrun, if_pos]
        refine ih _ (fun q hq => ?_)
        rcases List.mem_or_eq_of_mem_set hq with h | h
        · exact hna q h
        · subst h; simp
      | act => exact absurd rfl (hna _ hmem)
      | ret r =>
        simp only [startStep]
        refine ih _ (fun q hq => ?_)
        rcases List.mem_or_eq_of_mem_set hq with h | h
        · exact hna q h
        · subst h; simp

/-- Claim C5 counterexample: the check-and-set inside `start_capture` is
not atomic — no lock serializes the read of `running` and the later
set-and-launch block. Under the interleaving in which both of two
concurrent calls pass the check before either sets the flag, both launch
a worker: the launch counter reaches 2, refuting "N concurrent calls
launch exactly one worker" for every interleaving. -/
theorem interleaved_starts_launch_two :
    (runSched [0, 1, 0, 1] ⟨false, 0⟩ [SPC.check, SPC.check]).1.launches = 2 := by
  decide

/-- Claim C5 (amended): the check-and-set is not atomic, so only
non-overlapping calls are guaranteed to launch a single worker: under the
fully serialized schedule, n concurrent `start_capture` calls starting
from the not-running state launch exactly one worker — the first call
launches it and every later call observes `running` true and returns
None. (Overlapping interleavings can launch more than one.) -/
theorem serialized_starts_launch_one (n : Nat) (h : 1 ≤ n) :
    (runSched (seqSched n) ⟨false, 0⟩ (List.replicate n SPC.check)).1.launches = 1 := by
  obtain ⟨m, rfl⟩ : ∃ m, n = m + 1 := ⟨n - 1, by omega⟩
  have hstep :
      runSched (seqSched (m + 1)) ⟨false, 0⟩ (List.replicate (m + 1) SPC.check) =
        runSched (seqSchedFrom 1 m) ⟨true, 1⟩
          (SPC.ret (some true) :: List.replicate m SPC.check) := by
    rw [seqSched, seqSchedFrom, List.replicate_succ]
    simp [runSched, startStep]
  rw [hstep,
    runSched_stable (seqSchedFrom 1 m) ⟨true, 1⟩
      (SPC.ret (some true) :: List.replicate m SPC.check) rfl
      (fun pc hpc => by
        rcases List.mem_cons.mp hpc with h2 | h2
        · subst h2; simp
        · have h3 := List.eq_of_mem_replicate h2
          subst h3; simp)]

/-- Witness for the amended C5 at three serialized calls. -/
theorem serialized_starts_launch_one_witness :
    (runSched (seqSched 3) ⟨false, 0⟩ (List.replicate 3 SPC.check)).1.launches = 1 :=
  serialized_starts_launch_one 3 (by decide)

/-- Looking a key up after mapping a function over the values of an
association list. -/
theorem lookup_map_value (r : Row) (f : PCell → PCell) (c : String) :
    (r.map (fun kv => (kv.1, f kv.2))).lookup c = (r.lookup c).map f := by
  induction r with
  | nil => rfl
  | cons kv t ih =>
    cases kv with
    | mk a b =>
      by_cases h : c = a
      · simp [List.lookup, h]
      · have hb : (c == a) = false := by simp [h]
        simp [List.lookup, hb, ih]

/-- Reading a cell of a NaN-replaced row is the replacement of the cell. -/
theorem rowGet_replace (r : Row) (c : String) :
    rowGet (r.map (fun kv => (kv.1, replace_na_cell kv.2))) c =
      replace_na_cell (rowGet r c) := by
  rw [rowGet, rowGet, lookup_map_value]
  cases r.lookup c with
  | none => rfl
  | some v => rfl

/-- NaN replacement does not affect comparison against a string cell. -/
theorem replace_na_cell_beq_str (v : PCell) (s : String) :
    (replace_na_cell v == PCell.cStr s) = (v == PCell.cStr s) := by
  cases v with
  | cNone => rfl
  | cFloat f => cases f <;> rfl
  | cInt n => rfl
  | cStr t => rfl

/-- A successful association-list lookup exhibits a member pair. -/
theorem lookup_mem {r : Row} {c : String} {v : PCell} (h : r.lookup c = some v) :
    (c, v) ∈ r := by
  induction r with
  | nil => cases h
  | cons kv t ih =>
    cases kv with
    | mk a b =>
      rw [List.lookup] at h
      by_cases hca : c = a
      · subst hca
        simp only [beq_self_eq_true] at h
        cases h
        exact List.mem_cons_self _ _
      · have hb : (c == a) = false := by simp [hca]
        rw [hb] at h
        exact List.mem_cons_of_mem _ (ih h)

/-- Looking up a key in a list that pairs each element with a function of
itself. -/
theorem lookup_pair_self (L : List PCell) (f : PCell → Nat) (k : PCell) :
    (L.map (fun v => (v, f v))).lookup k = if k ∈ L then some (f k) else none := by
  induction L with
  | nil => rfl
  | cons a t ih =>
    by_cases h : k = a
    · subst h
      simp [List.lookup]
    · have hb : (k == a) = false := by simp [h]
      have hmem : (k ∈ a :: t) = (k ∈ t) := by simp [List.mem_cons, h]
      simp [List.lookup, hb, ih, hmem]

/-- The dict produced by `value_counts` maps every non-null value present
in the column to its count and has no entry otherwise. -/
theorem value_counts_lookup (vs : List PCell) (k : PCell) (hk : isNA k = false) :
    (value_counts vs).lookup k =
      if 0 < vs.count k then some (vs.count k) else none := by
  simp only [value_counts]
  rw [lookup_pair_self]
  have hcf : (vs.filter (fun v => !isNA v)).count k = vs.count k :=
    List.count_filter (by simp [hk])
  by_cases hm : k ∈ vs
  · have h1 : k ∈ (vs.filter (fun v => !isNA v)).dedup := by
      rw [List.mem_dedup, List.mem_filter]
      exact ⟨hm, by simp [hk]⟩
    rw [if_pos h1, hcf, if_pos (List.count_pos_iff.mpr hm)]
  · have h1 : k ∉ (vs.filter (fun v => !isNA v)).dedup := by
      rw [List.mem_dedup, List.mem_filter]
      rintro ⟨h2, -⟩
      exact hm h2
    rw [if_neg h1, if_neg]
    intro hc
    exact hm (List.count_pos_iff.mp hc)

/-- The summary entry for a label string equals the number of rows of the
original file carrying that label. -/
theorem summaryGet_value_counts (df : DataFrame) (s : String) :
    summaryGet (value_counts ((replace_na_df df).rows.map (fun r => rowGet r "Label"))) s =
      countLabel df s := by
  have hcount : ((replace_na_df df).rows.map (fun r => rowGet r "Label")).count
      (PCell.cStr s) = countLabel df s := by
    rw [List.count, List.countP_map, replace_na_df]
    dsimp only
    rw [List.countP_map, countLabel]
    refine List.countP_congr (fun r hr => ?_)
    show ((rowGet (r.map fun kv => (kv.1, replace_na_cell kv.2)) "Label") ==
        PCell.cStr s) = true ↔ ((rowGet r "Label") == PCell.cStr s) = true
    rw [rowGet_replace, replace_na_cell_beq_str]
  rw [summaryGet,
    value_counts_lookup ((replace_na_df df).rows.map (fun r => rowGet r "Label"))
      (PCell.cStr s) rfl,
    hcount]
  by_cases hc : 0 < countLabel df s
  · rw [if_pos hc]
  · rw [if_neg hc]
    show 0 = countLabel df s
    omega

/-- NaN replacement keeps the frame well-formed: keys and columns are
untouched. -/
theorem colsClosed_replace (df : DataFrame) (h : ColsClosed df) :
    ColsClosed (replace_na_df df) := by
  intro r hr kv hkv
  rw [replace_na_df] at hr
  dsimp only at hr
  obtain ⟨r0, hr0, rfl⟩ := List.mem_map.mp hr
  obtain ⟨kv0, hkv0, rfl⟩ := List.mem_map.mp hkv
  exact h r0 hr0 kv0 hkv0

/-- The attack-type dict computed by `live_status` on the NaN-replaced
frame coincides with the specification-side breakdown: only rows labeled
ATTACK contribute, keyed by attack-type value, rows with a missing
attack-type omitted. The column guard, the emptiness guard and the
`pd.notna(k)` filter of the code all collapse into the specification
formula. -/
theorem attackTypesOf_replace_eq_spec (df : DataFrame) (h : ColsClosed df) :
    attackTypesOf (replace_na_df df) = attackTypesSpec df := by
  have h2 := colsClosed_replace df h
  rw [attackTypesOf, attackTypesSpec]
  by_cases hA : "Attack_Type" ∈ (replace_na_df df).cols
  · rw [if_pos hA]
    dsimp only
    by_cases he : ((replace_na_df df).rows.filter
        (fun r => rowGet r "Label" == PCell.cStr "ATTACK")).isEmpty
    · rw [if_pos he]
      have hnil : (replace_na_df df).rows.filter
          (fun r => rowGet r "Label" == PCell.cStr "ATTACK") = [] :=
        List.isEmpty_iff.mp he
      rw [hnil]
      rfl
    · rw [if_neg he]
      simp only [value_counts]
      rw [List.filter_map]
      have hself : ((((replace_na_df df).rows.filter
            (fun r => rowGet r "Label" == PCell.cStr "ATTACK")).map
            (fun r => rowGet r "Attack_Type")).filter (fun v => !isNA v)).dedup.filter
            ((fun kv => !isNA kv.1) ∘ (fun v => (v, ((((replace_na_df df).rows.filter
              (fun r => rowGet r "Label" == PCell.cStr "ATTACK")).map
              (fun r => rowGet r "Attack_Type")).filter (fun v => !isNA v)).count v))) =
          ((((replace_na_df df).rows.filter
            (fun r => rowGet r "Label" == PCell.cStr "ATTACK")).map
            (fun r => rowGet r "Attack_Type")).filter (fun v => !isNA v)).dedup := by
        refine List.filter_eq_self.mpr (fun v hv => ?_)
        exact (List.mem_filter.mp (List.mem_dedup.mp hv)).2
      rw [hself, List.map_map]
      rfl
  · rw [if_neg hA]
    have hva : ∀ v ∈ (((replace_na_df df).rows.filter
        (fun r => rowGet r "Label" == PCell.cStr "ATTACK")).map
        (fun r => rowGet r "Attack_Type")), isNA v = true := by
      intro v hv
      obtain ⟨r, hr, rfl⟩ := List.mem_map.mp hv
      have hrr : r ∈ (replace_na_df df).rows := (List.mem_filter.mp hr).1
      rw [rowGet]
      cases hl : r.lookup "Attack_Type" with
      | none => rfl
      | some v2 => exact absurd (h2 r hrr _ (lookup_mem hl)) hA
    have hnil : ((((replace_na_df df).rows.filter
        (fun r => rowGet r "Label" == PCell.cStr "ATTACK")).map
        (fun r => rowGet r "Attack_Type")).filter (fun v => !isNA v)) = [] :=
      List.filter_eq_nil_iff.mpr (fun v hv => by simp [hva v hv])
    rw [hnil]
    rfl

/-- The output of `replace_nan_with_none` contains no NaN anywhere. -/
theorem noNaN_replace (v : PVal) : (replace_nan_with_none v).noNaN = true := by
  induction v using replace_nan_with_none.induct with
  | case1 d ih =>
    simp_all [replace_nan_with_none, PVal.noNaN, List.all_eq_true]
    intro a b x y hxy hxa hrep
    subst hrep
    exact ih x y hxy
  | case2 l ih => simp_all [replace_nan_with_none, PVal.noNaN, List.all_eq_true]
  | case3 => simp [replace_nan_with_none, PVal.noNaN]
  | case4 => simp_all [replace_nan_with_none, PVal.noNaN]
  | case5 => simp [replace_nan_with_none, PVal.noNaN]
  | case6 => simp [replace_nan_with_none, PVal.noNaN]
  | case7 => simp [replace_nan_with_none, PVal.noNaN]

/-- Claim C3 (amended): every snapshot `live_status` actually returns is
free of NaN / missing-value sentinels, recursively: the flow counters are
naturals, and `all_flows` — the only component holding row data — passes
through `replace_nan_with_none`, so no NaN survives anywhere in it.
(Infinite float values, however, are not normalized; see the
counterexample.) -/
theorem live_status_sanitizes_nan (g : Globals) (file : Option DataFrame)
    (snap : Snapshot) (h : live_status g file = .ok snap) :
    snap.all_flows.noNaN = true := by
  cases file with
  | none =>
    rw [live_status] at h
    cases h
    simp [PVal.noNaN]
  | some df =>
    rw [live_status] at h
    dsimp only at h
    by_cases hL : "Label" ∈ (replace_na_df df).cols
    · rw [if_pos hL] at h
      cases h
      exact noNaN_replace _
    · rw [if_neg hL] at h
      cases h

/-- A one-row results table containing a NaN cell. -/
def dfNaN : DataFrame :=
  ⟨["Label", "X"], [[("Label", PCell.cStr "BENIGN"), ("X", PCell.cFloat PFloat.nan)]]⟩

/-- The snapshot `live_status` produces for `dfNaN` on the idle state: the
NaN cell has been normalized to None. -/
def snapNaN : Snapshot :=
  ⟨false, none, 1, 1, 0, 0, [],
    .pList [.pDict [("Label", .pStr "BENIGN"), ("X", .pNone)]]⟩

/-- Witness for the amended C3 at a concrete table containing a NaN: the
returned snapshot carries None where the NaN was, and is NaN-free. -/
theorem live_status_sanitizes_nan_witness :
    live_status gIdle (some dfNaN) = Except.ok snapNaN ∧
      snapNaN.all_flows.noNaN = true := by
  have hEq : live_status gIdle (some dfNaN) = Except.ok snapNaN := by
    simp [live_status, gIdle, dfNaN, snapNaN, is_running, get_last_capture,
      replace_na_df, replace_na_cell, rowGet, value_counts, summaryGet,
      attackTypesOf, isNA, cellToPVal, replace_nan_with_none, List.lookup]
    decide
  exact ⟨hEq, live_status_sanitizes_nan gIdle (some dfNaN) snapNaN hEq⟩

/-- A one-row results table containing a positive-infinity cell. -/
def dfInf : DataFrame :=
  ⟨["Label", "X"], [[("Label", PCell.cStr "BENIGN"), ("X", PCell.cFloat PFloat.inf)]]⟩

/-- The snapshot `live_status` produces for `dfInf` on the idle state: the
infinity passes through untouched. -/
def snapInf : Snapshot :=
  ⟨false, none, 1, 1, 0, 0, [],
    .pList [.pDict [("Label", .pStr "BENIGN"), ("X", .pFloat PFloat.inf)]]⟩

/-- Claim C3 counterexample: the sanitization only normalizes NaN, not the
infinities. For a results table with an infinite float in a row field,
`live_status` returns a snapshot whose `all_flows` still contains the
infinity — a numeric value that is neither a finite JSON-representable
number nor the absent-value marker — so the claim that every numeric
value in the snapshot is finite-or-None fails. -/
theorem live_status_passes_infinity :
    live_status gIdle (some dfInf) = Except.ok snapInf ∧
      snapInf.all_flows.allFiniteOrNone = false := by
  constructor
  · simp [live_status, gIdle, dfInf, snapInf, is_running, get_last_capture,
      replace_na_df, replace_na_cell, rowGet, value_counts, summaryGet,
      attackTypesOf, isNA, cellToPVal, replace_nan_with_none, List.lookup]
    decide
  · simp [snapInf, PVal.allFiniteOrNone]

/-- Claim C7: for a status read with an existing results file (carrying a
Label column, as every pipeline output does), the snapshot's `flows`
equals the file's row count; the summary — a record with exactly the
three keys BENIGN, ANOMALY, ATTACK, each defaulting to zero — counts per
row, rows with labels outside that set tolerated and simply not counted;
and `attack_types` equals the specification-side breakdown: built only
from rows labeled ATTACK, keyed by attack-type value, omitting rows whose
attack-type is missing/unset. -/
theorem live_status_counts (g : Globals) (df : DataFrame)
    (hL : "Label" ∈ df.cols) (hWF : ColsClosed df) :
    (live_status g (some df)).map Snapshot.flows = Except.ok df.rows.length ∧
    (live_status g (some df)).map Snapshot.summary_BENIGN =
      Except.ok (countLabel df "BENIGN") ∧
    (live_status g (some df)).map Snapshot.summary_ANOMALY =
      Except.ok (countLabel df "ANOMALY") ∧
    (live_status g (some df)).map Snapshot.summary_ATTACK =
      Except.ok (countLabel df "ATTACK") ∧
    (live_status g (some df)).map Snapshot.attack_types =
      Except.ok (attackTypesSpec df) := by
  have hL2 : "Label" ∈ (replace_na_df df).cols := hL
  have hls : live_status g (some df) = Except.ok ⟨is_running g, get_last_capture g,
      (replace_na_df df).rows.length,
      summaryGet (value_counts ((replace_na_df df).rows.map
        (fun r => rowGet r "Label"))) "BENIGN",
      summaryGet (value_counts ((replace_na_df df).rows.map
        (fun r => rowGet r "Label"))) "ANOMALY",
      summaryGet (value_counts ((replace_na_df df).rows.map
        (fun r => rowGet r "Label"))) "ATTACK",
      attackTypesOf (replace_na_df df),
      replace_nan_with_none (.pList ((replace_na_df (replace_na_df df)).rows.map
        (fun r => .pDict (r.map (fun kv => (kv.1, cellToPVal kv.2))))))⟩ := by
    simp only [live_status]
    rw [if_pos hL2]
  rw [hls]
  simp only [Except.map]
  refine ⟨?_, ?_, ?_, ?_, ?_⟩
  · show Except.ok (replace_na_df df).rows.length = Except.ok df.rows.length
    rw [replace_na_df]
    dsimp only
    rw [List.length_map]
  · exact congrArg Except.ok (summaryGet_value_counts df "BENIGN")
  · exact congrArg Except.ok (summaryGet_value_counts df "ANOMALY")
  · exact congrArg Except.ok (summaryGet_value_counts df "ATTACK")
  · exact congrArg Except.ok (attackTypesOf_replace_eq_spec df hWF)

/-- A three-row results table: two BENIGN flows, one ATTACK flow of type
SYN-flood, plus a row label outside the three known buckets would also be
tolerated. -/
def dfThree : DataFrame :=
  ⟨["Label", "Attack_Type"],
   [[("Label", PCell.cStr "BENIGN"), ("Attack_Type", PCell.cNone)],
    [("Label", PCell.cStr "BENIGN"), ("Attack_Type", PCell.cNone)],
    [("Label", PCell.cStr "ATTACK"), ("Attack_Type", PCell.cStr "SYN-flood")]]⟩

/-- Witness for C7 at the three-row table. -/
theorem live_status_counts_witness :
    (live_status gRun (some dfThree)).map Snapshot.flows =
      Except.ok dfThree.rows.length ∧
    (live_status gRun (some dfThree)).map Snapshot.summary_BENIGN =
      Except.ok (countLabel dfThree "BENIGN") ∧
    (live_status gRun (some dfThree)).map Snapshot.summary_ANOMALY =
      Except.ok (countLabel dfThree "ANOMALY") ∧
    (live_status gRun (some dfThree)).map Snapshot.summary_ATTACK =
      Except.ok (countLabel dfThree "ATTACK") ∧
    (live_status gRun (some dfThree)).map Snapshot.attack_types =
      Except.ok (attackTypesSpec dfThree) :=
  live_status_counts gRun dfThree (by decide) (by unfold ColsClosed; decide)
